import Mathlib

/-!
# Data-plane of the multi-cluster gateway: connection arbitration and authorization

Shallow embedding of

* `pkg/dataplane/go/connect.go`  (package `mbgDataplane`): `Connect`,
  `StartProxyToLocalService`, `StartProxyToRemoteService`, `tcpConnectReq`,
  `mtlsConnectReq`, `hijackConn`, `createConnId`;
* `pkg/dataplane/server/server.go` (package `server`): `StartSNIServer`,
  `dataplaneIngressAuthorize`, `hijackConn`, `initiateEgressConnection`.

Conventions of the embedding.

* A Go `string` is a Lean `String`; a Go `error` is an `Option String`
  (`none` is `nil`); a Go multi-value return is a product.
* A `net.Conn` is a natural number naming the socket; a nilable `net.Conn`
  is an `Option Conn`.
* Every function returns, next to its Go result, the list of externally
  visible actions it performed, in program order (`Effect`).  Log lines are
  not recorded.  A goroutine started with `go f(...)` is recorded as one
  effect carrying the arguments of the call.
* The collaborators that live outside these files (store, policy event
  manager, kubernetes labels, JSON, HTTP helpers, `net`, `tls`) are fields of
  an environment record: each field is the answer the collaborator gives.
* A Go run-time panic is an explicit outcome.
-/

set_option autoImplicit false

namespace Clusterlink

/-- Name of a socket (`net.Conn`). -/
abbrev Conn := Nat

/-- Go `error`: `none` is `nil`, `some msg` an error with text `msg`. -/
abbrev GoError := Option String

/-! ## Data carried by the collaborators' interfaces -/

/-- Policy verdict, `eventManager.Action`. -/
inductive Action where
  | Allow
  | Deny
  deriving DecidableEq, Repr

/-- Direction tag, `eventManager.Direction`. -/
inductive Direction where
  | Incoming
  | Outgoing
  deriving DecidableEq, Repr

/-- Argument record `eventManager.ConnectionRequestAttr`. -/
structure ConnectionRequestAttr where
  SrcService : String
  DstService : String
  Direction : Direction
  OtherMbg : String
  deriving DecidableEq, Repr

/-- Answer of `RaiseNewConnectionRequestEvent`: the fields the code reads. -/
structure PolicyResp where
  Action : Action
  TargetMbg : String
  deriving DecidableEq, Repr

/-- Body of `POST /connect`, `apiObject.ConnectRequest`. -/
structure ConnectRequest where
  Id : String
  IdDest : String
  Policy : String
  MbgID : String
  deriving DecidableEq, Repr

/-- Reply of `POST /connect`, `apiObject.ConnectReply`. -/
structure ConnectReply where
  Connect : Bool
  ConnectType : String
  ConnectDest : String
  deriving DecidableEq, Repr

/-- Local service record of the store: the fields the code reads. -/
structure LocalService where
  Id : String
  Ip : String
  deriving DecidableEq, Repr

/-- Remote service record of the store: the fields the code reads. -/
structure RemoteService where
  Id : String
  MbgId : String
  deriving DecidableEq, Repr

/-- The `http.ResponseWriter` handed to a handler, as far as hijacking goes:
either it does not implement `http.Hijacker`, or it does and `Hijack()`
returns a connection, or it does and `Hijack()` returns an error (and no
connection). -/
inductive ResponseWriter where
  /-- the writer does not implement `http.Hijacker` -/
  | plain
  /-- `Hijack()` returns `(conn, _, nil)` -/
  | hijackOk (conn : Conn)
  /-- `Hijack()` returns `(nil, nil, err)` -/
  | hijackFail (err : String)
  deriving DecidableEq, Repr

/-- Header set of an HTTP message: keys with their values, in order. -/
abbrev Header := List (String × List String)

/-- Inbound `*http.Request`: the fields `dataplaneIngressAuthorize` reads. -/
structure Request where
  Method : String
  Path : String
  Body : String
  ContentLength : Int
  Header : Header
  deriving DecidableEq, Repr

/-- Response of an HTTP round trip: the fields the handlers read;
`TargetCluster` is `resp.Header.Get(cpapi.TargetClusterHeader)`. -/
structure Response where
  StatusCode : Nat
  Status : String
  TargetCluster : String
  deriving DecidableEq, Repr

/-- Externally visible actions, in the order the code performs them. -/
inductive Effect where
  /-- `RaiseNewConnectionRequestEvent(attr)` -/
  | raiseEvent (attr : ConnectionRequestAttr)
  /-- `http.Error(w, msg, code)` -/
  | httpError (msg : String) (code : Nat)
  /-- `w.WriteHeader(code)` -/
  | writeHeader (code : Nat)
  /-- `hj.Hijack()` -/
  | hijack
  /-- `ksuid.New()` -/
  | ksuidNew
  /-- `go StartTcpProxyService(svcListenPort, svcIp, policy, connName, serverConn, clientConn)` -/
  | goStartTcpProxyService (svcListenPort svcIp policy connName : String)
      (serverConn clientConn : Option Conn)
  /-- `go StartMtlsProxyToLocalService(localServicePort, targetMbgIPPort, remoteEndPoint)` -/
  | goStartMtlsProxyToLocalService (localServicePort targetMbgIPPort remoteEndPoint : String)
  /-- entry of `tcpConnectReq(svcId, svcIdDest, svcPolicy, mbgIp)` -/
  | tcpConnectReq (svcId svcIdDest svcPolicy mbgIp : String)
  /-- entry of `mtlsConnectReq(svcId, svcIdDest, svcPolicy, mbgIp)` -/
  | mtlsConnectReq (svcId svcIdDest svcPolicy mbgIp : String)
  /-- `httputils.HttpConnect(mbgIp, url, body)` -/
  | httpConnect (mbgIp url body : String)
  /-- `httputils.HttpPost(address, body, client)` -/
  | httpPost (address body : String)
  /-- `mtlsForward.StartMtlsForwarderClient(mbgIP, connectDest, rootCA, certificate, key, serverName, ac)` -/
  | startMtlsForwarderClient (mbgIP connectDest rootCA certificate key serverName : String)
      (ac : Conn)
  /-- `c.Close()` on a socket -/
  | close (c : Conn)
  /-- `client.Do(req)` with the request's method, URL, body, content length and headers -/
  | clientDo (method url body : String) (contentLength : Int) (header : Header)
  /-- `resp.Body.Close()` -/
  | bodyClose
  /-- `peerConn.SetDeadline(time.Time{})` -/
  | setDeadline (c : Conn)
  /-- `peerConn.Write(data)` or `fmt.Fprintf(peerConn, data)` -/
  | write (c : Conn) (data : String)
  /-- `net.Dial(network, address)` -/
  | dial (network address : String)
  /-- `tls.Dial(network, address, tlsConfig)` -/
  | tlsDial (network address : String)
  /-- `forward.start()` of a `forwarder` with the two connections -/
  | forwarderStart (listenerConn peerConn : Conn)
  /-- `sniproxy.NewServer(routes)` -/
  | sniNewServer (routes : List (String × String))
  /-- `sniProxy.Listen(address)` -/
  | sniListen (address : String)
  /-- `sniProxy.Serve()` -/
  | sniServe
  deriving DecidableEq, Repr

/-! ## `pkg/dataplane/go/connect.go` -/

namespace mbgDataplane

/-- `const TCP_TYPE = "tcp"` -/
def TCP_TYPE : String := "tcp"

/-- `const MTLS_TYPE = "mtls"` -/
def MTLS_TYPE : String := "mtls"

/-- Collaborators of `connect.go`: the answers of the store, the policy event
manager, the kubernetes label lookup, `encoding/json`, `httputils`, `ksuid`
and `net.Conn.RemoteAddr`, as seen after `store.UpdateState()`. -/
structure Env where
  /-- `store.GetMyId()` -/
  GetMyId : String
  /-- `store.GetDataplane()` -/
  GetDataplane : String
  /-- `store.GetAddrStart()` -/
  GetAddrStart : String
  /-- `store.IsServiceLocal(id)` -/
  IsServiceLocal : String → Bool
  /-- `store.GetLocalService(id)` -/
  GetLocalService : String → LocalService
  /-- `localSvc.GetIpAndPort()` -/
  GetIpAndPort : LocalService → String
  /-- `store.GetMbgTarget(mbgId)` -/
  GetMbgTarget : String → String
  /-- `store.GetRemoteService(id)` -/
  GetRemoteService : String → List RemoteService
  /-- `store.LookupLocalService(label, ip)` -/
  LookupLocalService : String → String → LocalService × GoError
  /-- `store.GetEventManager().RaiseNewConnectionRequestEvent(attr)` -/
  RaiseNewConnectionRequestEvent : ConnectionRequestAttr → PolicyResp × GoError
  /-- `eventManager.Wildcard` -/
  Wildcard : String
  /-- `kubernetes.Data.GetLabel(ip, kubernetes.AppLabel)` -/
  GetLabel : String → String × GoError
  /-- `json.Marshal` of a `ConnectRequest` -/
  Marshal : ConnectRequest → String × GoError
  /-- `json.Unmarshal` into a `ConnectReply` -/
  Unmarshal : String → ConnectReply × GoError
  /-- `httputils.HttpConnect(mbgIp, url, body)` -/
  HttpConnect : String → String → String → Option Conn × GoError
  /-- `httputils.HttpPost(address, body, client)` -/
  HttpPost : String → String → String × GoError
  /-- `ksuid.New().String()`: the identifier the generator hands out -/
  ksuidNew : String
  /-- `ac.RemoteAddr().String()` -/
  RemoteAddr : Conn → String

/-- `strings.Replace(s, old, new, n)` for a one-character `old`: the first `n`
occurrences are replaced, all of them when `n < 0`. -/
def Replace (s : List Char) (old : Char) (new : List Char) (n : Int) : List Char :=
  match s with
  | [] => []
  | ch :: rest =>
    if n ≠ 0 ∧ ch = old then new ++ Replace rest old new (n - 1)
    else ch :: Replace rest old new n

/-- `strings.Split(s, ":")[0]`: `Split` with a non-empty separator returns at
least one element, and element 0 is the text before the first separator. -/
def SplitFirst (s : String) : String :=
  String.mk (s.data.takeWhile (fun ch => ch != ':'))

/-- `createConnId` (connect.go 281-285). -/
def createConnId (srcId destId : String) : String :=
  let connectionID := srcId ++ ":" ++ destId
  let connectionID := String.mk (Replace connectionID.data '*' "wildcard".data 2)
  connectionID

/-- `hijackConn` (connect.go 269-280). -/
def hijackConn (w : ResponseWriter) : List Effect × Option Conn :=
  match w with
  | .plain => ([.httpError "server doesn't support hijacking" 500], none)
  | .hijackOk conn => ([.writeHeader 200, .hijack], some conn)
  | .hijackFail _ => ([.writeHeader 200, .hijack], none)

/-- `StartProxyToLocalService` (connect.go 43-81). -/
def StartProxyToLocalService (e : Env) (c : ConnectRequest) (_targetMbgIP : String)
    (w : ResponseWriter) : List Effect × (Bool × String × String) :=
  let connectionID := createConnId c.Id c.IdDest
  let dataplane := e.GetDataplane
  let localSvc := e.GetLocalService c.IdDest
  let attr : ConnectionRequestAttr :=
    { SrcService := c.Id, DstService := c.IdDest, Direction := .Incoming, OtherMbg := c.MbgID }
  match e.RaiseNewConnectionRequestEvent attr with
  | (_, some _) => ([.raiseEvent attr], (false, "", ""))
  | (policyResp, none) =>
    if policyResp.Action = .Deny then ([.raiseEvent attr], (false, "", ""))
    else
      let mbgTarget := e.GetMbgTarget c.MbgID
      if dataplane = TCP_TYPE then
        match hijackConn w with
        | (t, none) => (.raiseEvent attr :: t, (false, "", ""))
        | (t, some conn) =>
          (.raiseEvent attr :: t ++
            [.goStartTcpProxyService "httpconnect" (e.GetIpAndPort localSvc) c.Policy
              connectionID (some conn) none],
           (true, dataplane, "httpconnect"))
      else if dataplane = MTLS_TYPE then
        let uid := e.ksuidNew
        let remoteEndPoint := connectionID ++ "-" ++ uid
        ([.raiseEvent attr, .ksuidNew,
          .goStartMtlsProxyToLocalService (e.GetIpAndPort localSvc) mbgTarget remoteEndPoint],
         (true, dataplane, remoteEndPoint))
      else ([.raiseEvent attr], (false, "", ""))

/-- `Connect` (connect.go 26-38). -/
def Connect (e : Env) (c : ConnectRequest) (targetMbgIP : String) (w : ResponseWriter) :
    List Effect × (Bool × String × String) :=
  if e.IsServiceLocal c.IdDest then StartProxyToLocalService e c targetMbgIP w
  else ([], (false, "", ""))

/-- `mtlsConnectReq` (connect.go 221-249). -/
def mtlsConnectReq (e : Env) (svcId svcIdDest svcPolicy mbgIp : String) :
    List Effect × (String × String × GoError) :=
  let address := e.GetAddrStart ++ mbgIp ++ "/connect"
  let t0 : List Effect := [.mtlsConnectReq svcId svcIdDest svcPolicy mbgIp]
  match e.Marshal { Id := svcId, IdDest := svcIdDest, Policy := svcPolicy, MbgID := e.GetMyId } with
  | (_, some err) => (t0, ("", "", some err))
  | (j, none) =>
    match e.HttpPost address j with
    | (_, some err) => (t0 ++ [.httpPost address j], ("", "", some err))
    | (resp, none) =>
      match e.Unmarshal resp with
      | (_, some err) => (t0 ++ [.httpPost address j], ("", "", some err))
      | (r, none) =>
        if r.Connect = true then (t0 ++ [.httpPost address j], (r.ConnectType, r.ConnectDest, none))
        else (t0 ++ [.httpPost address j], ("", "", some "failed to connect"))

/-- `tcpConnectReq` (connect.go 251-267). -/
def tcpConnectReq (e : Env) (svcId svcIdDest svcPolicy mbgIp : String) :
    List Effect × (Option Conn × GoError) :=
  let url := e.GetAddrStart ++ mbgIp ++ "/connect"
  let t0 : List Effect := [.tcpConnectReq svcId svcIdDest svcPolicy mbgIp]
  match e.Marshal { Id := svcId, IdDest := svcIdDest, Policy := svcPolicy, MbgID := e.GetMyId } with
  | (_, some err) => (t0, (none, some err))
  | (jsonData, none) =>
    match e.HttpConnect mbgIp url jsonData with
    | (c, none) => (t0 ++ [.httpConnect mbgIp url jsonData], (c, none))
    | (_, some _) => (t0 ++ [.httpConnect mbgIp url jsonData], (none, some "Connect Request Failed"))

/-- How one pass through the body of the accept loop ends. -/
inductive IterEnd where
  /-- control goes back to the top of the `for` (by `continue` or by falling off the body) -/
  | next
  /-- the function returns the error -/
  | returned (err : GoError)
  /-- run-time panic -/
  | panicked (msg : String)
  deriving DecidableEq, Repr

/-- One pass through the body of the `for` of `StartProxyToRemoteService`
(connect.go 135-216), given what `acceptor.Accept()` returned.  `dataplane`
is the value read before the loop (line 132). -/
def acceptIteration (dataplane : String) (e : Env)
    (serviceId servicePort rootCA certificate key : String)
    (ac : Conn) (err : GoError) : List Effect × IterEnd :=
  match err with
  | some msg => ([], .returned (some msg))
  | none =>
    let appIp := e.RemoteAddr ac
    let appLabel := (e.GetLabel (SplitFirst (e.RemoteAddr ac))).1
    let localSvc := (e.LookupLocalService appLabel appIp).1
    let attr : ConnectionRequestAttr :=
      { SrcService := localSvc.Id, DstService := serviceId, Direction := .Outgoing,
        OtherMbg := e.Wildcard }
    match e.RaiseNewConnectionRequestEvent attr with
    | (_, some _) => ([.raiseEvent attr, .close ac], .next)
    | (policyResp, none) =>
      if policyResp.Action = .Deny then ([.raiseEvent attr, .close ac], .next)
      else
        match e.GetRemoteService serviceId with
        | [] => ([.raiseEvent attr], .panicked "index out of range [0] with length 0")
        | destSvc :: _ =>
          let mbgIP :=
            if policyResp.TargetMbg = "" then e.GetMbgTarget destSvc.MbgId
            else e.GetMbgTarget policyResp.TargetMbg
          if dataplane = TCP_TYPE then
            match tcpConnectReq e localSvc.Id serviceId "forward" mbgIP with
            | (t, (_, some _)) => (.raiseEvent attr :: t ++ [.close ac], .next)
            | (t, (connDest, none)) =>
              let connectDest := "Use open connect socket"
              let connectionID := createConnId localSvc.Id destSvc.Id
              (.raiseEvent attr :: t ++
                [.goStartTcpProxyService servicePort connectDest "forward" connectionID
                  (some ac) connDest],
               .next)
          else if dataplane = MTLS_TYPE then
            match mtlsConnectReq e localSvc.Id serviceId "forward" mbgIP with
            | (t, (_, _, some _)) => (.raiseEvent attr :: t ++ [.close ac], .next)
            | (t, (_, connectDest, none)) =>
              let serverName := e.GetMyId
              (.raiseEvent attr :: t ++
                [.startMtlsForwarderClient mbgIP connectDest rootCA certificate key serverName ac],
               .next)
          else ([.raiseEvent attr], .next)

/-- How a run of the accept loop over a finite script of `Accept` results ends. -/
inductive LoopEnd where
  /-- the script is used up: the loop is back at `Accept` -/
  | accepting
  /-- `StartProxyToRemoteService` returned the error -/
  | returned (err : GoError)
  /-- run-time panic in the loop body -/
  | panicked (msg : String)
  deriving DecidableEq, Repr

/-- The `for` of `StartProxyToRemoteService` run against a script: one entry
per call of `acceptor.Accept()`, giving its result and the collaborators'
answers during that pass. -/
def acceptLoop (dataplane : String) (serviceId servicePort rootCA certificate key : String) :
    List (Conn × GoError × Env) → List Effect × LoopEnd
  | [] => ([], .accepting)
  | (ac, err, e) :: rest =>
    match acceptIteration dataplane e serviceId servicePort rootCA certificate key ac err with
    | (t, .next) =>
      let r := acceptLoop dataplane serviceId servicePort rootCA certificate key rest
      (t ++ r.1, r.2)
    | (t, .returned err) => (t, .returned err)
    | (t, .panicked msg) => (t, .panicked msg)

/-- `StartProxyToRemoteService` (connect.go 131-218): `e0` is the store when
the function is entered, the script drives the loop. -/
def StartProxyToRemoteService (e0 : Env) (serviceId servicePort rootCA certificate key : String)
    (script : List (Conn × GoError × Env)) : List Effect × LoopEnd :=
  let dataplane := e0.GetDataplane
  acceptLoop dataplane serviceId servicePort rootCA certificate key script

end mbgDataplane

/-! ## `pkg/dataplane/server/server.go` -/

namespace server

/-- `const httpSchemaPrefix = "https://"` -/
def httpSchemaPrefix : String := "https://"

/-- Receiver `*Dataplane`: the fields the methods read. -/
structure Dataplane where
  peerName : String
  controlplaneTarget : String
  deriving DecidableEq, Repr

/-- Collaborators of `server.go`: constants and helpers of the `api`, `cpapi`
and `sniproxy` packages, `GetClusterTarget`, and the answers of `net/http`,
`net` and `crypto/tls`.  A dial returns either a connection or an error. -/
structure Env where
  /-- `api.ListenPort` -/
  ListenPort : Nat
  /-- `api.DataplaneServerName(peerName)` -/
  DataplaneServerName : String → String
  /-- `cpapi.DataplaneIngressAuthorizationPath` -/
  DataplaneIngressAuthorizationPath : String
  /-- `cpapi.AuthorizationHeader` -/
  AuthorizationHeader : String
  /-- `sniProxy.Listen(address)` -/
  sniListen : String → GoError
  /-- `sniProxy.Serve()` -/
  sniServe : GoError
  /-- error of `http.NewRequest(method, url, body)` -/
  NewRequest : String → String → GoError
  /-- `client.Do(req)`: the response (nil or not) and the error -/
  Do : String → String → String → Int → Header → Option Response × GoError
  /-- `GetClusterTarget(cluster)` -/
  GetClusterTarget : String → String × GoError
  /-- `peerConn.SetDeadline(time.Time{})` -/
  SetDeadline : Conn → GoError
  /-- error of `peerConn.Write(data)` -/
  Write : Conn → String → GoError
  /-- `net.Dial(network, address)` -/
  Dial : String → String → Except String Conn
  /-- `tls.Dial(network, address, tlsConfig)` -/
  tlsDial : String → String → Except String Conn

/-- Go map from string to string: keys are distinct, in insertion order. -/
abbrev GoMap := List (String × String)

/-- `m[k] = v` -/
def mapSet : GoMap → String → String → GoMap
  | [], k, v => [(k, v)]
  | (k0, v0) :: rest, k, v => if k0 = k then (k0, v) :: rest else (k0, v0) :: mapSet rest k v

/-- `v, ok := m[k]` -/
def mapGet : GoMap → String → Option String
  | [], _ => none
  | (k0, v0) :: rest, k => if k0 = k then some v0 else mapGet rest k

/-- `h.Add(key, value)` -/
def headerAdd : Header → String → String → Header
  | [], key, value => [(key, [value])]
  | (k, vs) :: rest, key, value =>
    if k = key then (k, vs ++ [value]) :: rest else (k, vs) :: headerAdd rest key value

/-- Lines 61-65 of `dataplaneIngressAuthorize`: every value of every key of
`src` is added to the header of the forwarded request. -/
def copyHeader (src : Header) : Header :=
  src.foldl (fun acc kv => kv.2.foldl (fun h value => headerAdd h kv.1 value) acc) []

/-- `err.Error()`: the text of a non-nil error; `none` when `err` is nil, where
the call dereferences a nil interface and panics. -/
def errorText : GoError → Option String
  | some msg => some msg
  | none => none

/-- How a handler invocation ends. -/
inductive HandlerEnd where
  /-- the handler returns -/
  | returned
  /-- run-time panic -/
  | panicked (msg : String)
  deriving DecidableEq, Repr

/-- Text of Go's nil dereference panic. -/
def nilDeref : String := "runtime error: invalid memory address or nil pointer dereference"

/-- `StartSNIServer` (server.go 32-45). -/
def Dataplane.StartSNIServer (d : Dataplane) (e : Env) (dataplaneServerAddress : String) :
    List Effect × GoError :=
  let dataplaneListenAddress := ":" ++ toString e.ListenPort
  let routes : GoMap :=
    mapSet (mapSet [] d.peerName d.controlplaneTarget)
      (e.DataplaneServerName d.peerName) dataplaneServerAddress
  match e.sniListen dataplaneListenAddress with
  | some err =>
    ([.sniNewServer routes, .sniListen dataplaneListenAddress],
     some ("unable to create listener for server on " ++ dataplaneListenAddress ++ ": " ++ err))
  | none => ([.sniNewServer routes, .sniListen dataplaneListenAddress, .sniServe], e.sniServe)

/-- `hijackConn` (server.go 116-143): `.ok peerConn` is `(peerConn, nil)`,
`.error msg` is `(nil, err)`. -/
def Dataplane.hijackConn (e : Env) (w : ResponseWriter) : List Effect × Except String Conn :=
  match w with
  | .plain => ([], .error "server doesn't support hijacking")
  | .hijackFail err => ([.hijack], .error ("hijaclking failed " ++ err))
  | .hijackOk peerConn =>
    match e.SetDeadline peerConn with
    | some err =>
      ([.hijack, .setDeadline peerConn],
       .error ("failed to clear deadlines on connection: " ++ err))
    | none =>
      match e.Write peerConn "" with
      | some err =>
        ([.hijack, .setDeadline peerConn, .write peerConn "", .close peerConn],
         .error ("failed to write to connection: " ++ err))
      | none =>
        ([.hijack, .setDeadline peerConn, .write peerConn "",
          .write peerConn "HTTP/1.1 200 OK\r\nContent-Type: text/plain\r\n\r\n"],
         .ok peerConn)

/-- `dataplaneIngressAuthorize` (server.go 51-114).  The deferred
`resp.Body.Close()` runs when the handler leaves, also by panic. -/
def Dataplane.dataplaneIngressAuthorize (d : Dataplane) (e : Env) (w : ResponseWriter)
    (r : Request) : List Effect × HandlerEnd :=
  let forwardingURL := httpSchemaPrefix ++ d.controlplaneTarget ++ r.Path
  match e.NewRequest r.Method forwardingURL with
  | some err => ([.httpError err 500], .returned)
  | none =>
    let header := copyHeader r.Header
    let sent : Effect := .clientDo r.Method forwardingURL r.Body r.ContentLength header
    match e.Do r.Method forwardingURL r.Body r.ContentLength header with
    | (_, some err) => ([sent, .httpError err 500], .returned)
    | (none, none) => ([sent], .panicked nilDeref)
    | (some resp, none) =>
      -- `err`, assigned by line 67, is nil from here to line 83
      let err : GoError := none
      let rest : List Effect × HandlerEnd :=
        if resp.StatusCode ≠ 200 then
          match errorText err with
          | none => ([], .panicked nilDeref)
          | some msg => ([.httpError msg 500], .returned)
        else
          match e.GetClusterTarget resp.TargetCluster with
          | (_, some err) => ([.httpError err 500], .returned)
          | (serviceTarget, none) =>
            match Dataplane.hijackConn e w with
            | (t, .error _) => (t ++ [.httpError "hijacking failed" 500], .returned)
            | (t, .ok peerConn) =>
              match e.Dial "tcp" serviceTarget with
              | .error err => (t ++ [.dial "tcp" serviceTarget, .httpError err 500], .returned)
              | .ok listenerConn =>
                (t ++ [.dial "tcp" serviceTarget, .forwarderStart listenerConn peerConn],
                 .returned)
      (sent :: rest.1 ++ [.bodyClose], rest.2)

/-- `initiateEgressConnection` (server.go 145-189).  The deferred
`resp.Body.Close()` is registered only for a non-nil response. -/
def Dataplane.initiateEgressConnection (e : Env) (targetCluster authToken : String)
    (listenerConn : Conn) : List Effect × GoError :=
  match e.GetClusterTarget targetCluster with
  | (_, some err) => ([], some err)
  | (target, none) =>
    let url := httpSchemaPrefix ++ target ++ e.DataplaneIngressAuthorizationPath
    match e.tlsDial "tcp" target with
    | .error err => ([.tlsDial "tcp" target], some err)
    | .ok peerConn =>
      match e.NewRequest "POST" url with
      | some err => ([.tlsDial "tcp" target], some err)
      | none =>
        let header := headerAdd [] e.AuthorizationHeader authToken
        let sent : Effect := .clientDo "POST" url "" 0 header
        let answer := e.Do "POST" url "" 0 header
        let deferred : List Effect :=
          match answer.1 with
          | some _ => [.bodyClose]
          | none => []
        match answer.2 with
        | some err => ([.tlsDial "tcp" target, sent] ++ deferred, some err)
        | none =>
          ([.tlsDial "tcp" target, sent, .forwarderStart listenerConn peerConn] ++ deferred,
           none)

end server

/-! ## Vocabulary of the properties -/

namespace mbgDataplane

/-- The policy request `StartProxyToLocalService` raises for `c` (line 48). -/
def incomingAttr (c : ConnectRequest) : ConnectionRequestAttr :=
  { SrcService := c.Id, DstService := c.IdDest, Direction := .Incoming, OtherMbg := c.MbgID }

/-- The local service the accept loop attributes the accepted socket to
(lines 148-158): looked up by workload label, then by address. -/
def outgoingSource (e : Env) (ac : Conn) : LocalService :=
  (e.LookupLocalService (e.GetLabel (SplitFirst (e.RemoteAddr ac))).1 (e.RemoteAddr ac)).1

/-- The policy request the accept loop raises for an accepted socket (line 163). -/
def outgoingAttr (e : Env) (serviceId : String) (ac : Conn) : ConnectionRequestAttr :=
  { SrcService := (outgoingSource e ac).Id, DstService := serviceId, Direction := .Outgoing,
    OtherMbg := e.Wildcard }

/-- Effects that belong to a forwarding session or to its set-up: hijacking
the HTTP connection, generating a RemoteEndpoint suffix, sending a connect
request to a gateway, dialling, starting a forwarder. -/
def startsSession : Effect → Bool
  | .hijack => true
  | .writeHeader _ => true
  | .ksuidNew => true
  | .goStartTcpProxyService _ _ _ _ _ _ => true
  | .goStartMtlsProxyToLocalService _ _ _ => true
  | .tcpConnectReq _ _ _ _ => true
  | .mtlsConnectReq _ _ _ _ => true
  | .httpConnect _ _ _ => true
  | .httpPost _ _ => true
  | .startMtlsForwarderClient _ _ _ _ _ _ _ => true
  | .forwarderStart _ _ => true
  | .dial _ _ => true
  | .tlsDial _ _ => true
  | _ => false

/-- An effect is directed at the gateway address `addr` (URLs starting with
`addrStart`): `HttpConnect` goes to host `addr` with URL
`addrStart ++ addr ++ "/connect"`, `HttpPost` goes to that URL, the mTLS
client dials `addr`.  Effects that contact no gateway satisfy it trivially. -/
def directedAt (addrStart addr : String) : Effect → Prop
  | .httpConnect mbgIp url _ => mbgIp = addr ∧ url = addrStart ++ addr ++ "/connect"
  | .httpPost address _ => address = addrStart ++ addr ++ "/connect"
  | .startMtlsForwarderClient mbgIP _ _ _ _ _ _ => mbgIP = addr
  | _ => True

/-- The body of the connect request the accept loop sends for an accepted
socket (lines 187/203 with 225/255). -/
def outgoingConnectRequest (e : Env) (serviceId : String) (ac : Conn) : ConnectRequest :=
  { Id := (outgoingSource e ac).Id, IdDest := serviceId, Policy := "forward",
    MbgID := e.GetMyId }

/-- A gateway `mbg1` used to exercise the functions: local service `svcB`,
workloads labelled `svcA`, the given data-plane mode, policy answer and remote
service records; connect requests to other gateways succeed. -/
def gateway (dataplane : String) (verdict : PolicyResp × GoError)
    (remote : List RemoteService) : Env where
  GetMyId := "mbg1"
  GetDataplane := dataplane
  GetAddrStart := "https://"
  IsServiceLocal := fun id => id == "svcB"
  GetLocalService := fun id => { Id := id, Ip := "10.0.0.2" }
  GetIpAndPort := fun svc => svc.Ip ++ ":5000"
  GetMbgTarget := fun id => id ++ ".example:443"
  GetRemoteService := fun _ => remote
  LookupLocalService := fun label _ => ({ Id := label, Ip := "10.0.0.7" }, none)
  RaiseNewConnectionRequestEvent := fun _ => verdict
  Wildcard := "*"
  GetLabel := fun _ => ("svcA", none)
  Marshal := fun c => (c.Id ++ "," ++ c.IdDest ++ "," ++ c.Policy ++ "," ++ c.MbgID, none)
  Unmarshal := fun _ => ({ Connect := true, ConnectType := "mtls", ConnectDest := "ep1" }, none)
  HttpConnect := fun _ _ _ => (some 9, none)
  HttpPost := fun _ _ => ("ok", none)
  ksuidNew := "2TfJ"
  RemoteAddr := fun _ => "10.0.0.7:41000"

/-- A connect request of remote gateway `mbg2`, from `svcA` to `svcB`. -/
def requestAB : ConnectRequest :=
  { Id := "svcA", IdDest := "svcB", Policy := "forward", MbgID := "mbg2" }

/-- Policy answer Allow with the given target gateway. -/
def allow (target : String) : PolicyResp × GoError :=
  ({ Action := .Allow, TargetMbg := target }, none)

/-- Policy answer Deny. -/
def deny : PolicyResp × GoError :=
  ({ Action := .Deny, TargetMbg := "" }, none)

end mbgDataplane

namespace server

/-- A data-plane server used to exercise the handlers: the control plane
answers the authorization round trip with the given status, the dial to the
destination gives the given result; the derived server name follows the
spec's description (peer identity plus a data-plane suffix). -/
def dataplaneEnv (status : Nat) (dial : Except String Conn) : Env where
  ListenPort := 443
  DataplaneServerName := fun peer => peer ++ ".dataplane"
  DataplaneIngressAuthorizationPath := "/authz"
  AuthorizationHeader := "Authorization"
  sniListen := fun _ => none
  sniServe := none
  NewRequest := fun _ _ => none
  Do := fun _ _ _ _ _ =>
    (some { StatusCode := status, Status := toString status, TargetCluster := "svcB" }, none)
  GetClusterTarget := fun cluster => (cluster ++ ".cluster:5000", none)
  SetDeadline := fun _ => none
  Write := fun _ _ => none
  Dial := fun _ _ => dial
  tlsDial := fun _ _ => .ok 8

/-- The gateway of peer `peer1`, control plane at `cp:444`. -/
def peer1 : Dataplane :=
  { peerName := "peer1", controlplaneTarget := "cp:444" }

/-- An inbound authorization request. -/
def authzRequest : Request :=
  { Method := "POST", Path := "/authz", Body := "", ContentLength := 0,
    Header := [("Authorization", ["token"])] }

end server

/-! ## Properties of `connect.go` -/

section ConnectGo

open mbgDataplane

/-- C1. No session without Allow.  Incoming (`Connect`, and
`StartProxyToLocalService` on its own): when the destination is not local, or
the policy collaborator returns an error, or it answers Deny, the result is
`(false, "", "")` and no effect of the call hijacks the connection, generates
a RemoteEndpoint suffix or starts a forwarder.  Outgoing (one pass of the
accept loop of `StartProxyToRemoteService` over an accepted socket): when the
policy collaborator returns an error or answers Deny, no connect request is
sent and no forwarder is started. -/
theorem C1_no_session_without_allow (e : Env) (c : ConnectRequest) (targetMbgIP : String)
    (w : ResponseWriter) (dataplane serviceId servicePort rootCA certificate key : String)
    (ac : Conn) :
    ((e.IsServiceLocal c.IdDest = false ∨
        (e.RaiseNewConnectionRequestEvent (incomingAttr c)).2 ≠ none ∨
        (e.RaiseNewConnectionRequestEvent (incomingAttr c)).1.Action = .Deny) →
      (Connect e c targetMbgIP w).2 = (false, "", "") ∧
      ∀ eff ∈ (Connect e c targetMbgIP w).1, startsSession eff = false) ∧
    (((e.RaiseNewConnectionRequestEvent (incomingAttr c)).2 ≠ none ∨
        (e.RaiseNewConnectionRequestEvent (incomingAttr c)).1.Action = .Deny) →
      (StartProxyToLocalService e c targetMbgIP w).2 = (false, "", "") ∧
      ∀ eff ∈ (StartProxyToLocalService e c targetMbgIP w).1, startsSession eff = false) ∧
    (((e.RaiseNewConnectionRequestEvent (outgoingAttr e serviceId ac)).2 ≠ none ∨
        (e.RaiseNewConnectionRequestEvent (outgoingAttr e serviceId ac)).1.Action = .Deny) →
      ∀ eff ∈ (acceptIteration dataplane e serviceId servicePort rootCA certificate key
                ac none).1, startsSession eff = false) := by
  have local_part : ((e.RaiseNewConnectionRequestEvent (incomingAttr c)).2 ≠ none ∨
        (e.RaiseNewConnectionRequestEvent (incomingAttr c)).1.Action = .Deny) →
      (StartProxyToLocalService e c targetMbgIP w).2 = (false, "", "") ∧
      ∀ eff ∈ (StartProxyToLocalService e c targetMbgIP w).1, startsSession eff = false := by
    intro h
    unfold StartProxyToLocalService
    simp only [incomingAttr] at h
    rcases hr : e.RaiseNewConnectionRequestEvent
      { SrcService := c.Id, DstService := c.IdDest, Direction := .Incoming,
        OtherMbg := c.MbgID } with ⟨p, err⟩
    rw [hr] at h
    simp only [hr]
    cases err with
    | some msg => simp [startsSession]
    | none =>
      simp at h
      simp [h, startsSession]
  refine ⟨?_, local_part, ?_⟩
  · intro h
    unfold Connect
    cases hl : e.IsServiceLocal c.IdDest with
    | false => simp
    | true =>
      simp only [hl, if_true]
      apply local_part
      rcases h with h | h
      · rw [hl] at h; cases h
      · exact h
  · intro h
    unfold acceptIteration
    simp only [outgoingAttr, outgoingSource] at h
    rcases hr : e.RaiseNewConnectionRequestEvent
      { SrcService :=
          (e.LookupLocalService (e.GetLabel (SplitFirst (e.RemoteAddr ac))).1
            (e.RemoteAddr ac)).1.Id,
        DstService := serviceId, Direction := .Outgoing, OtherMbg := e.Wildcard } with ⟨p, err⟩
    rw [hr] at h
    simp only [hr]
    cases err with
    | some msg => simp [startsSession]
    | none =>
      simp at h
      simp [h, startsSession]

/-- C1 at a concrete gateway: a request for the non-local `svcX`, a denied
request for the local `svcB`, and a denied outgoing socket. -/
theorem C1_no_session_without_allow_witness :
    ((Connect (gateway "tcp" (allow "") []) { requestAB with IdDest := "svcX" } "" (.hijackOk 3)).2
        = (false, "", "") ∧
      ∀ eff ∈ (Connect (gateway "tcp" (allow "") []) { requestAB with IdDest := "svcX" } ""
                (.hijackOk 3)).1, startsSession eff = false) ∧
    ((StartProxyToLocalService (gateway "tcp" deny []) requestAB "" (.hijackOk 3)).2
        = (false, "", "") ∧
      ∀ eff ∈ (StartProxyToLocalService (gateway "tcp" deny []) requestAB "" (.hijackOk 3)).1,
        startsSession eff = false) ∧
    (∀ eff ∈ (acceptIteration "mtls" (gateway "mtls" deny [{ Id := "svcC", MbgId := "mbg2" }])
                "svcC" ":5100" "ca" "cert" "key" 4 none).1, startsSession eff = false) :=
  ⟨(C1_no_session_without_allow (gateway "tcp" (allow "") []) { requestAB with IdDest := "svcX" }
      "" (.hijackOk 3) "tcp" "svcC" ":5100" "ca" "cert" "key" 4).1 (Or.inl (by decide)),
   (C1_no_session_without_allow (gateway "tcp" deny []) requestAB
      "" (.hijackOk 3) "tcp" "svcC" ":5100" "ca" "cert" "key" 4).2.1 (Or.inr (by decide)),
   (C1_no_session_without_allow (gateway "mtls" deny [{ Id := "svcC", MbgId := "mbg2" }]) requestAB
      "" (.hijackOk 3) "mtls" "svcC" ":5100" "ca" "cert" "key" 4).2.2 (Or.inr (by decide))⟩

/-- C2 (the code at the failing input). `createConnId "**" "*"` replaces only
the first two wildcard markers: the result is `wildcardwildcard:*`, which
still contains `*` and differs from the fully substituted
`wildcardwildcard:wildcard`. -/
theorem C2_createConnId_third_marker_kept :
    createConnId "**" "*" = "wildcardwildcard:*" ∧
    '*' ∈ (createConnId "**" "*").data ∧
    createConnId "**" "*" ≠ String.mk (Replace ("**" ++ ":" ++ "*").data '*' "wildcard".data (-1)) := by
  decide

/-- Every request `tcpConnectReq` sends goes to `mbgIp`. -/
theorem tcpConnectReq_directed (e : Env) (svcId svcIdDest svcPolicy mbgIp : String) :
    ∀ eff ∈ (tcpConnectReq e svcId svcIdDest svcPolicy mbgIp).1,
      directedAt e.GetAddrStart mbgIp eff := by
  unfold tcpConnectReq
  dsimp only
  split
  · simp [directedAt]
  · split <;> simp [directedAt]

/-- Every request `mtlsConnectReq` sends goes to `mbgIp`. -/
theorem mtlsConnectReq_directed (e : Env) (svcId svcIdDest svcPolicy mbgIp : String) :
    ∀ eff ∈ (mtlsConnectReq e svcId svcIdDest svcPolicy mbgIp).1,
      directedAt e.GetAddrStart mbgIp eff := by
  unfold mtlsConnectReq
  dsimp only
  split
  · simp [directedAt]
  · split
    · simp [directedAt]
    · split
      · simp [directedAt]
      · split <;> simp [directedAt]

/-- Once the body marshals, `tcpConnectReq` calls `HttpConnect` on `mbgIp`. -/
theorem tcpConnectReq_sends (e : Env) (svcId svcIdDest svcPolicy mbgIp j : String)
    (hj : e.Marshal { Id := svcId, IdDest := svcIdDest, Policy := svcPolicy, MbgID := e.GetMyId }
            = (j, none)) :
    Effect.httpConnect mbgIp (e.GetAddrStart ++ mbgIp ++ "/connect") j ∈
      (tcpConnectReq e svcId svcIdDest svcPolicy mbgIp).1 := by
  unfold tcpConnectReq
  simp only [hj]
  split <;> simp

/-- Once the body marshals, `mtlsConnectReq` calls `HttpPost` on the connect
URL of `mbgIp`. -/
theorem mtlsConnectReq_sends (e : Env) (svcId svcIdDest svcPolicy mbgIp j : String)
    (hj : e.Marshal { Id := svcId, IdDest := svcIdDest, Policy := svcPolicy, MbgID := e.GetMyId }
            = (j, none)) :
    Effect.httpPost (e.GetAddrStart ++ mbgIp ++ "/connect") j ∈
      (mtlsConnectReq e svcId svcIdDest svcPolicy mbgIp).1 := by
  unfold mtlsConnectReq
  simp only [hj]
  split
  · simp
  · split
    · simp
    · split <;> simp

/-- An allowed attempt for a service without remote records panics, in every
environment and mode. -/
theorem acceptIteration_no_records (dataplane : String) (e : Env)
    (serviceId servicePort rootCA certificate key : String) (ac : Conn) (p : PolicyResp)
    (hp : e.RaiseNewConnectionRequestEvent (outgoingAttr e serviceId ac) = (p, none))
    (hallow : p.Action ≠ .Deny) (hrec : e.GetRemoteService serviceId = []) :
    acceptIteration dataplane e serviceId servicePort rootCA certificate key ac none
      = ([.raiseEvent (outgoingAttr e serviceId ac)],
         .panicked "index out of range [0] with length 0") := by
  simp only [outgoingAttr, outgoingSource] at hp
  unfold acceptIteration
  simp only [hp, hrec, if_neg hallow, outgoingAttr, outgoingSource]

/-- An allowed attempt in a mode other than `tcp` and `mtls` goes back to
`Accept` after the policy request alone, in every environment. -/
theorem acceptIteration_other_mode (dataplane : String) (e : Env)
    (serviceId servicePort rootCA certificate key : String) (ac : Conn) (p : PolicyResp)
    (destSvc : RemoteService) (rest : List RemoteService)
    (hp : e.RaiseNewConnectionRequestEvent (outgoingAttr e serviceId ac) = (p, none))
    (hallow : p.Action ≠ .Deny) (hrec : e.GetRemoteService serviceId = destSvc :: rest)
    (h1 : dataplane ≠ TCP_TYPE) (h2 : dataplane ≠ MTLS_TYPE) :
    acceptIteration dataplane e serviceId servicePort rootCA certificate key ac none
      = ([.raiseEvent (outgoingAttr e serviceId ac)], .next) := by
  simp only [outgoingAttr, outgoingSource] at hp
  unfold acceptIteration
  simp only [hp, hrec, if_neg hallow, if_neg h1, if_neg h2, outgoingAttr, outgoingSource]

/-- C5 (the code at the failing input). With the data-plane mode `udp`
(neither `tcp` nor `mtls`) and an allowed attempt, the pass over accepted
socket `4` performs the policy request and nothing else: control goes back to
`Accept`, no forwarder has the socket and the socket is not closed.  The same
holds for the whole loop run on that one socket. -/
theorem C5_unsupported_mode_leaves_socket_open :
    acceptIteration "udp" (gateway "udp" (allow "") [{ Id := "svcC", MbgId := "mbg2" }])
        "svcC" ":5100" "ca" "cert" "key" 4 none
      = ([.raiseEvent { SrcService := "svcA", DstService := "svcC", Direction := .Outgoing,
                        OtherMbg := "*" }], .next) ∧
    Effect.close 4 ∉
      (acceptIteration "udp" (gateway "udp" (allow "") [{ Id := "svcC", MbgId := "mbg2" }])
        "svcC" ":5100" "ca" "cert" "key" 4 none).1 ∧
    Effect.close 4 ∉
      (StartProxyToRemoteService (gateway "udp" (allow "") [{ Id := "svcC", MbgId := "mbg2" }])
        "svcC" ":5100" "ca" "cert" "key"
        [(4, none, gateway "udp" (allow "") [{ Id := "svcC", MbgId := "mbg2" }])]).1 ∧
    (StartProxyToRemoteService (gateway "udp" (allow "") [{ Id := "svcC", MbgId := "mbg2" }])
        "svcC" ":5100" "ca" "cert" "key"
        [(4, none, gateway "udp" (allow "") [{ Id := "svcC", MbgId := "mbg2" }])]).2
      = .accepting := by
  decide

/-- C6 (the code at the failing input). When the store has no remote service
record for `svcC` and policy allows the attempt, the pass over accepted socket
`4` panics on `GetRemoteService(serviceId)[0]`; run on two accepted sockets,
the loop ends in that panic during the first pass, although `Accept` never
returned an error, and the second socket is never handled. -/
theorem C6_empty_record_list_panics :
    acceptIteration "tcp" (gateway "tcp" (allow "") []) "svcC" ":5100" "ca" "cert" "key" 4 none
      = ([.raiseEvent { SrcService := "svcA", DstService := "svcC", Direction := .Outgoing,
                        OtherMbg := "*" }],
         .panicked "index out of range [0] with length 0") ∧
    StartProxyToRemoteService (gateway "tcp" (allow "") []) "svcC" ":5100" "ca" "cert" "key"
        [(4, none, gateway "tcp" (allow "") []), (5, none, gateway "tcp" (allow "") [])]
      = ([.raiseEvent { SrcService := "svcA", DstService := "svcC", Direction := .Outgoing,
                        OtherMbg := "*" }],
         .panicked "index out of range [0] with length 0") := by
  decide

/-- C7 (the stated equivalence fails). Mode `tcp`, policy allows and names
the target gateway `mbg2`, and the first record of `svcC` is registered at
`mbg2` as well: the connect request goes to `mbg2.example:443`, which is
`GetMbgTarget` of the registered gateway id, although the policy's target
gateway is not the empty string. -/
theorem C7_registered_address_with_named_target :
    acceptIteration "tcp" (gateway "tcp" (allow "mbg2") [{ Id := "svcC", MbgId := "mbg2" }])
        "svcC" ":5100" "ca" "cert" "key" 4 none
      = ([.raiseEvent { SrcService := "svcA", DstService := "svcC", Direction := .Outgoing,
                        OtherMbg := "*" },
          .tcpConnectReq "svcA" "svcC" "forward" "mbg2.example:443",
          .httpConnect "mbg2.example:443" "https://mbg2.example:443/connect"
            "svcA,svcC,forward,mbg1",
          .goStartTcpProxyService ":5100" "Use open connect socket" "forward" "svcA:svcC"
            (some 4) (some 9)],
         .next) ∧
    (gateway "tcp" (allow "mbg2") [{ Id := "svcC", MbgId := "mbg2" }]).GetMbgTarget
        ({ Id := "svcC", MbgId := "mbg2" } : RemoteService).MbgId = "mbg2.example:443" ∧
    (allow "mbg2").1.TargetMbg ≠ "" ∧
    ¬ ("mbg2.example:443" =
          (gateway "tcp" (allow "mbg2") [{ Id := "svcC", MbgId := "mbg2" }]).GetMbgTarget
            ({ Id := "svcC", MbgId := "mbg2" } : RemoteService).MbgId
        ↔ (allow "mbg2").1.TargetMbg = "") := by
  decide

/-- C7 (amended). Target gateway of an allowed outgoing attempt whose
destination has a first remote record `destSvc` (policy answer `p` without
error and not Deny).  Let `addr` be `GetMbgTarget(p.TargetMbg)` when
`p.TargetMbg` is not empty, whatever `destSvc.MbgId` is, and
`GetMbgTarget(destSvc.MbgId)` when it is empty.  Then every `HttpConnect`,
every `HttpPost` and the mTLS client dial of the pass go to `addr`; in mode
`tcp` the `HttpConnect` to `addr` is sent once the request body marshals; in
mode `mtls` the `HttpPost` to the connect URL of `addr` is sent once the body
marshals, and the mTLS client dials `addr` once that request succeeds. -/
theorem C7_target_gateway_resolution (dataplane : String) (e : Env)
    (serviceId servicePort rootCA certificate key : String) (ac : Conn)
    (p : PolicyResp) (destSvc : RemoteService) (rest : List RemoteService) (addr : String)
    (hp : e.RaiseNewConnectionRequestEvent (outgoingAttr e serviceId ac) = (p, none))
    (hallow : p.Action ≠ .Deny)
    (hrec : e.GetRemoteService serviceId = destSvc :: rest)
    (haddr : (p.TargetMbg ≠ "" ∧ addr = e.GetMbgTarget p.TargetMbg) ∨
             (p.TargetMbg = "" ∧ addr = e.GetMbgTarget destSvc.MbgId)) :
    (∀ eff ∈ (acceptIteration dataplane e serviceId servicePort rootCA certificate key
                ac none).1, directedAt e.GetAddrStart addr eff) ∧
    (dataplane = TCP_TYPE → ∀ j, e.Marshal (outgoingConnectRequest e serviceId ac) = (j, none) →
      Effect.httpConnect addr (e.GetAddrStart ++ addr ++ "/connect") j ∈
        (acceptIteration dataplane e serviceId servicePort rootCA certificate key ac none).1) ∧
    (dataplane = MTLS_TYPE → ∀ j, e.Marshal (outgoingConnectRequest e serviceId ac) = (j, none) →
      Effect.httpPost (e.GetAddrStart ++ addr ++ "/connect") j ∈
        (acceptIteration dataplane e serviceId servicePort rootCA certificate key ac none).1) ∧
    (dataplane = MTLS_TYPE → ∀ connectType connectDest,
      (mtlsConnectReq e (outgoingSource e ac).Id serviceId "forward" addr).2
          = (connectType, connectDest, none) →
      Effect.startMtlsForwarderClient addr connectDest rootCA certificate key e.GetMyId ac ∈
        (acceptIteration dataplane e serviceId servicePort rootCA certificate key ac none).1) := by
  have hX : (if p.TargetMbg = "" then e.GetMbgTarget destSvc.MbgId
             else e.GetMbgTarget p.TargetMbg) = addr := by
    rcases haddr with ⟨h1, h2⟩ | ⟨h1, h2⟩
    · rw [if_neg h1, h2]
    · rw [if_pos h1, h2]
  have hmt : MTLS_TYPE ≠ TCP_TYPE := by decide
  have d1 : ∀ attr, directedAt e.GetAddrStart addr (.raiseEvent attr) := fun _ => trivial
  have d2 : ∀ c, directedAt e.GetAddrStart addr (.close c) := fun _ => trivial
  have d3 : ∀ a b c d x y,
      directedAt e.GetAddrStart addr (.goStartTcpProxyService a b c d x y) :=
    fun _ _ _ _ _ _ => trivial
  have d4 : ∀ b c d f g x,
      directedAt e.GetAddrStart addr (.startMtlsForwarderClient addr b c d f g x) :=
    fun _ _ _ _ _ _ => rfl
  simp only [outgoingAttr, outgoingSource] at hp
  simp only [outgoingConnectRequest, outgoingSource]
  unfold acceptIteration
  simp only [hp, hrec, if_neg hallow, hX]
  have ht := tcpConnectReq_directed e
    (e.LookupLocalService (e.GetLabel (SplitFirst (e.RemoteAddr ac))).1 (e.RemoteAddr ac)).1.Id
    serviceId "forward" addr
  have hm := mtlsConnectReq_directed e
    (e.LookupLocalService (e.GetLabel (SplitFirst (e.RemoteAddr ac))).1 (e.RemoteAddr ac)).1.Id
    serviceId "forward" addr
  refine ⟨?_, ?_, ?_, ?_⟩
  · by_cases hdt : dataplane = TCP_TYPE
    · simp only [hdt, if_true]
      split
      all_goals
        rename_i heq
        rw [heq] at ht
        intro eff hmem
        simp only [List.mem_cons, List.mem_append, List.mem_singleton, List.not_mem_nil,
          or_false] at hmem
        rcases hmem with (rfl | hmem) | rfl
        · exact d1 _
        · exact ht eff hmem
        · first | exact d2 _ | exact d3 _ _ _ _ _ _
    · simp only [if_neg hdt]
      by_cases hdm : dataplane = MTLS_TYPE
      · simp only [hdm, if_true]
        split
        all_goals
          rename_i heq
          rw [heq] at hm
          intro eff hmem
          simp only [List.mem_cons, List.mem_append, List.mem_singleton, List.not_mem_nil,
            or_false] at hmem
          rcases hmem with (rfl | hmem) | rfl
          · exact d1 _
          · exact hm eff hmem
          · first | exact d2 _ | exact d4 _ _ _ _ _ _
      · simp only [if_neg hdm]
        intro eff hmem
        simp only [List.mem_singleton] at hmem
        rw [hmem]
        exact d1 _
  · intro hdt j hj
    have hs := tcpConnectReq_sends e
      (e.LookupLocalService (e.GetLabel (SplitFirst (e.RemoteAddr ac))).1 (e.RemoteAddr ac)).1.Id
      serviceId "forward" addr j hj
    simp only [hdt, if_true]
    split
    all_goals
      rename_i heq
      rw [heq] at hs
      simp only [List.mem_cons, List.mem_append]
      exact Or.inl (Or.inr hs)
  · intro hdm j hj
    have hs := mtlsConnectReq_sends e
      (e.LookupLocalService (e.GetLabel (SplitFirst (e.RemoteAddr ac))).1 (e.RemoteAddr ac)).1.Id
      serviceId "forward" addr j hj
    simp only [hdm, if_neg hmt, if_true]
    split
    all_goals
      rename_i heq
      rw [heq] at hs
      simp only [List.mem_cons, List.mem_append]
      exact Or.inl (Or.inr hs)
  · intro hdm connectType connectDest hres
    simp only [hdm, if_neg hmt, if_true]
    split
    · rename_i heq
      rw [heq] at hres
      simp at hres
    · rename_i heq
      rw [heq] at hres
      simp only [Prod.mk.injEq, and_true] at hres
      simp only [List.mem_cons, List.mem_append, List.mem_singleton]
      rw [hres.2]
      exact Or.inr (Or.inl rfl)

/-- C7 (amended) at a concrete gateway in mode `tcp`: policy names `mbg3`, the
record of `svcC` is registered at `mbg2`, and the connect request goes to
`mbg3`. -/
theorem C7_target_gateway_resolution_witness :
    (allow "mbg3").1.TargetMbg ≠ "" ∧
    Effect.httpConnect "mbg3.example:443" "https://mbg3.example:443/connect"
        "svcA,svcC,forward,mbg1" ∈
      (acceptIteration "tcp" (gateway "tcp" (allow "mbg3") [{ Id := "svcC", MbgId := "mbg2" }])
        "svcC" ":5100" "ca" "cert" "key" 4 none).1 :=
  ⟨by decide,
   (C7_target_gateway_resolution "tcp"
      (gateway "tcp" (allow "mbg3") [{ Id := "svcC", MbgId := "mbg2" }])
      "svcC" ":5100" "ca" "cert" "key" 4 { Action := .Allow, TargetMbg := "mbg3" }
      { Id := "svcC", MbgId := "mbg2" } [] "mbg3.example:443" rfl (by decide) rfl
      (Or.inl ⟨by decide, rfl⟩)).2.1 rfl "svcA,svcC,forward,mbg1" rfl⟩

/-- C8. Strategy selection for an allowed incoming request to a local
destination (policy answer `p` without error, action Allow).  Mode `tcp` and a
writer whose hijack yields `conn`: the connection is hijacked, a TCP forwarder
from `conn` to the local service's ip:port is started, the result is
`(true, "tcp", "httpconnect")`.  Mode `tcp` and a writer that does not
support hijacking, or whose hijack fails: `(false, "", "")`, nothing started.
Mode `mtls`: the mTLS server role is started with `ep` and the local service's
ip:port, the result is `(true, "mtls", ep)`, where `ep` is
`createConnId c.Id c.IdDest`, `-` and the generated suffix.  Any other mode:
`(false, "", "")`, nothing started. -/
theorem C8_strategy_by_mode (e : Env) (c : ConnectRequest) (targetMbgIP : String)
    (w : ResponseWriter) (p : PolicyResp)
    (hp : e.RaiseNewConnectionRequestEvent (incomingAttr c) = (p, none))
    (hallow : p.Action = .Allow) :
    (e.GetDataplane = "tcp" → ∀ conn, w = .hijackOk conn →
      StartProxyToLocalService e c targetMbgIP w =
        ([.raiseEvent (incomingAttr c), .writeHeader 200, .hijack,
          .goStartTcpProxyService "httpconnect" (e.GetIpAndPort (e.GetLocalService c.IdDest))
            c.Policy (createConnId c.Id c.IdDest) (some conn) none],
         (true, "tcp", "httpconnect"))) ∧
    (e.GetDataplane = "tcp" → w = .plain →
      StartProxyToLocalService e c targetMbgIP w =
        ([.raiseEvent (incomingAttr c), .httpError "server doesn't support hijacking" 500],
         (false, "", ""))) ∧
    (e.GetDataplane = "tcp" → ∀ err, w = .hijackFail err →
      StartProxyToLocalService e c targetMbgIP w =
        ([.raiseEvent (incomingAttr c), .writeHeader 200, .hijack], (false, "", ""))) ∧
    (e.GetDataplane = "mtls" →
      StartProxyToLocalService e c targetMbgIP w =
        ([.raiseEvent (incomingAttr c), .ksuidNew,
          .goStartMtlsProxyToLocalService (e.GetIpAndPort (e.GetLocalService c.IdDest))
            (e.GetMbgTarget c.MbgID) (createConnId c.Id c.IdDest ++ "-" ++ e.ksuidNew)],
         (true, "mtls", createConnId c.Id c.IdDest ++ "-" ++ e.ksuidNew))) ∧
    (e.GetDataplane ≠ "tcp" → e.GetDataplane ≠ "mtls" →
      StartProxyToLocalService e c targetMbgIP w =
        ([.raiseEvent (incomingAttr c)], (false, "", ""))) := by
  have hnd : ¬ p.Action = .Deny := by rw [hallow]; decide
  simp only [incomingAttr] at hp
  unfold StartProxyToLocalService
  simp only [hp, if_neg hnd, incomingAttr, TCP_TYPE, MTLS_TYPE]
  refine ⟨?_, ?_, ?_, ?_, ?_⟩
  · intro hm conn hw
    subst hw
    simp [hm, hijackConn]
  · intro hm hw
    subst hw
    simp [hm, hijackConn]
  · intro hm err hw
    subst hw
    simp [hm, hijackConn]
  · intro hm
    simp [hm]
  · intro h1 h2
    simp [h1, h2]

/-- C8 at a concrete gateway: mode `mtls`, and mode `tcp` with a writer whose
hijack yields socket `3`. -/
theorem C8_strategy_by_mode_witness :
    StartProxyToLocalService (gateway "mtls" (allow "") []) requestAB "" .plain =
      ([.raiseEvent (incomingAttr requestAB), .ksuidNew,
        .goStartMtlsProxyToLocalService "10.0.0.2:5000" "mbg2.example:443" "svcA:svcB-2TfJ"],
       (true, "mtls", "svcA:svcB-2TfJ")) ∧
    StartProxyToLocalService (gateway "tcp" (allow "") []) requestAB "" (.hijackOk 3) =
      ([.raiseEvent (incomingAttr requestAB), .writeHeader 200, .hijack,
        .goStartTcpProxyService "httpconnect" "10.0.0.2:5000" "forward" "svcA:svcB" (some 3) none],
       (true, "tcp", "httpconnect")) :=
  ⟨(C8_strategy_by_mode (gateway "mtls" (allow "") []) requestAB "" .plain
      { Action := .Allow, TargetMbg := "" } rfl rfl).2.2.2.1 rfl,
   (C8_strategy_by_mode (gateway "tcp" (allow "") []) requestAB "" (.hijackOk 3)
      { Action := .Allow, TargetMbg := "" } rfl rfl).1 rfl 3 rfl⟩

end ConnectGo

/-! ## Properties of `server.go` -/

section ServerGo

open server

/-- Reading a key that was just written. -/
theorem mapGet_mapSet_self (m : GoMap) (k v : String) : mapGet (mapSet m k v) k = some v := by
  induction m with
  | nil => simp [mapSet, mapGet]
  | cons kv rest ih =>
    obtain ⟨k0, v0⟩ := kv
    by_cases h : k0 = k
    · simp [mapSet, mapGet, h]
    · simp [mapSet, mapGet, h, ih]

/-- Reading another key than the one just written. -/
theorem mapGet_mapSet_other (m : GoMap) (k v k1 : String) (h : k1 ≠ k) :
    mapGet (mapSet m k v) k1 = mapGet m k1 := by
  induction m with
  | nil =>
    have h2 : ¬ k = k1 := fun hh => h hh.symm
    simp [mapSet, mapGet, h2]
  | cons kv rest ih =>
    obtain ⟨k0, v0⟩ := kv
    by_cases hk : k0 = k
    · have h2 : ¬ k = k1 := fun hh => h hh.symm
      simp [mapSet, mapGet, hk, h2]
    · by_cases hk1 : k0 = k1
      · subst hk1
        simp [mapSet, mapGet, hk]
      · simp [mapSet, mapGet, hk, hk1, ih]

/-- Every answer without transport error and with a status other than 200
makes `dataplaneIngressAuthorize` panic after the forwarded request. -/
theorem dataplaneIngressAuthorize_non200 (d : Dataplane) (e : Env) (w : ResponseWriter)
    (r : Request) (resp : Response)
    (hreq : e.NewRequest r.Method (httpSchemaPrefix ++ d.controlplaneTarget ++ r.Path) = none)
    (hdo : e.Do r.Method (httpSchemaPrefix ++ d.controlplaneTarget ++ r.Path) r.Body
            r.ContentLength (copyHeader r.Header) = (some resp, none))
    (hstatus : resp.StatusCode ≠ 200) :
    d.dataplaneIngressAuthorize e w r
      = ([.clientDo r.Method (httpSchemaPrefix ++ d.controlplaneTarget ++ r.Path) r.Body
            r.ContentLength (copyHeader r.Header), .bodyClose],
         .panicked nilDeref) := by
  unfold Dataplane.dataplaneIngressAuthorize
  simp only [hreq, hdo, if_pos hstatus, errorText, List.nil_append]
  rfl

/-- Whatever the status of the answer, `initiateEgressConnection` starts the
forwarder and returns nil once the round trip had no transport error. -/
theorem initiateEgressConnection_ignores_status (e : Env) (targetCluster authToken : String)
    (listenerConn peerConn : Conn) (target : String) (resp : Response)
    (htarget : e.GetClusterTarget targetCluster = (target, none))
    (hdial : e.tlsDial "tcp" target = .ok peerConn)
    (hreq : e.NewRequest "POST" (httpSchemaPrefix ++ target ++ e.DataplaneIngressAuthorizationPath)
              = none)
    (hdo : e.Do "POST" (httpSchemaPrefix ++ target ++ e.DataplaneIngressAuthorizationPath) "" 0
              (headerAdd [] e.AuthorizationHeader authToken) = (some resp, none)) :
    Dataplane.initiateEgressConnection e targetCluster authToken listenerConn
      = ([.tlsDial "tcp" target,
          .clientDo "POST" (httpSchemaPrefix ++ target ++ e.DataplaneIngressAuthorizationPath)
            "" 0 (headerAdd [] e.AuthorizationHeader authToken),
          .forwarderStart listenerConn peerConn, .bodyClose],
         none) := by
  unfold Dataplane.initiateEgressConnection
  simp only [htarget, hdial, hreq, hdo, List.cons_append, List.nil_append]

/-- C3 (the code at the failing input). The control plane answers the
forwarded authorization request with status 401 and no transport error: the
handler panics while evaluating `err.Error()` on the nil `err`, before
`http.Error` is called, so no HTTP error response is written; the only
effects are the forwarded request and the deferred close of the response
body.  (Nothing is hijacked, dialled or forwarded.) -/
theorem C3_non200_panics_on_nil_err :
    Dataplane.dataplaneIngressAuthorize peer1 (dataplaneEnv 401 (.ok 6)) (.hijackOk 5) authzRequest
      = ([.clientDo "POST" "https://cp:444/authz" "" 0 [("Authorization", ["token"])],
          .bodyClose],
         .panicked nilDeref) ∧
    (∀ msg code, Effect.httpError msg code ∉
      (Dataplane.dataplaneIngressAuthorize peer1 (dataplaneEnv 401 (.ok 6)) (.hijackOk 5)
        authzRequest).1) := by
  refine ⟨by decide, ?_⟩
  intro msg code h
  have ht : (Dataplane.dataplaneIngressAuthorize peer1 (dataplaneEnv 401 (.ok 6)) (.hijackOk 5)
      authzRequest).1
      = [.clientDo "POST" "https://cp:444/authz" "" 0 [("Authorization", ["token"])],
          .bodyClose] := by decide
  rw [ht] at h
  simp at h

/-- C4 (the code at the failing input). The remote gateway answers the
authorization POST with status 401 and no transport error: the function
starts the forwarder between the local connection `7` and the TLS connection
`8` and returns nil. -/
theorem C4_forwarder_started_on_401 :
    Dataplane.initiateEgressConnection (dataplaneEnv 401 (.ok 6)) "svcB" "token" 7
      = ([.tlsDial "tcp" "svcB.cluster:5000",
          .clientDo "POST" "https://svcB.cluster:5000/authz" "" 0 [("Authorization", ["token"])],
          .forwarderStart 7 8, .bodyClose],
         none) := by
  decide

/-- C9. Routing table of `StartSNIServer`, for a derived data-plane name that
differs from the peer name: the table handed to the SNI proxy maps the peer
name to the control-plane target, the derived name to the data-plane server
address, and has no entry for any other server name. -/
theorem C9_sni_routing_table (d : Dataplane) (e : Env) (dataplaneServerAddress : String)
    (hname : e.DataplaneServerName d.peerName ≠ d.peerName) :
    ∃ routes : GoMap,
      (d.StartSNIServer e dataplaneServerAddress).1.head? = some (.sniNewServer routes) ∧
      (∀ other, Effect.sniNewServer other ∈ (d.StartSNIServer e dataplaneServerAddress).1 →
        other = routes) ∧
      mapGet routes d.peerName = some d.controlplaneTarget ∧
      mapGet routes (e.DataplaneServerName d.peerName) = some dataplaneServerAddress ∧
      ∀ name, name ≠ d.peerName → name ≠ e.DataplaneServerName d.peerName →
        mapGet routes name = none := by
  refine ⟨mapSet (mapSet [] d.peerName d.controlplaneTarget)
      (e.DataplaneServerName d.peerName) dataplaneServerAddress, ?_, ?_, ?_, ?_, ?_⟩
  · unfold Dataplane.StartSNIServer
    dsimp only
    split <;> rfl
  · intro other
    unfold Dataplane.StartSNIServer
    dsimp only
    split <;> simp
  · rw [mapGet_mapSet_other _ _ _ _ hname.symm, mapGet_mapSet_self]
  · rw [mapGet_mapSet_self]
  · intro name h1 h2
    rw [mapGet_mapSet_other _ _ _ _ h2, mapGet_mapSet_other _ _ _ _ h1]
    rfl

/-- C9 at the gateway of `peer1`. -/
theorem C9_sni_routing_table_witness :
    ∃ routes : GoMap,
      (peer1.StartSNIServer (dataplaneEnv 200 (.ok 6)) "127.0.0.1:8443").1.head?
        = some (.sniNewServer routes) ∧
      (∀ other, Effect.sniNewServer other ∈
          (peer1.StartSNIServer (dataplaneEnv 200 (.ok 6)) "127.0.0.1:8443").1 →
        other = routes) ∧
      mapGet routes "peer1" = some "cp:444" ∧
      mapGet routes "peer1.dataplane" = some "127.0.0.1:8443" ∧
      ∀ name, name ≠ "peer1" → name ≠ "peer1.dataplane" → mapGet routes name = none :=
  C9_sni_routing_table peer1 (dataplaneEnv 200 (.ok 6)) "127.0.0.1:8443" (by decide)

/-- C10 (the code at the failing input). Authorization succeeds (status 200),
the connection is hijacked as socket `5` and the `200 OK` line is written to
it, then the dial to the destination fails: the handler calls `http.Error`
on the hijacked writer and returns; socket `5` is never closed. -/
theorem C10_hijacked_conn_left_open_on_dial_failure :
    Dataplane.dataplaneIngressAuthorize peer1 (dataplaneEnv 200 (.error "connection refused"))
        (.hijackOk 5) authzRequest
      = ([.clientDo "POST" "https://cp:444/authz" "" 0 [("Authorization", ["token"])],
          .hijack, .setDeadline 5, .write 5 "",
          .write 5 "HTTP/1.1 200 OK\r\nContent-Type: text/plain\r\n\r\n",
          .dial "tcp" "svcB.cluster:5000", .httpError "connection refused" 500, .bodyClose],
         .returned) ∧
    Effect.close 5 ∉
      (Dataplane.dataplaneIngressAuthorize peer1 (dataplaneEnv 200 (.error "connection refused"))
        (.hijackOk 5) authzRequest).1 := by
  decide

end ServerGo

end Clusterlink
